import Mathlib

/-!
Verification of the staffing-coverage calculator of the Facilities-Hub
repository (source file `src/unnamed/part_002`). The calculator derives
the required headcount for a service post from its shift-rotation label
and planned headcount, and compares it against the number of active
collaborators. JavaScript optional fields are modelled with `Option`,
numbers with `Int`, and JavaScript string falsiness (`!escala` is true
for `null`, `undefined` and `""`) is made explicit.
-/

namespace FacilitiesHub

/-- `MIN_EFETIVO_ESCALA_12X36 = 4`: the fixed minimum crew size of a
12x36 rotation. -/
def MIN_EFETIVO_ESCALA_12X36 : Int := 4

/-- The `PostoEfetivoInfo` interface: an optional shift-rotation label
and an optional planned headcount. -/
structure PostoEfetivoInfo where
  escala : Option String
  efetivo_planejado : Option Int
deriving DecidableEq, Repr

/-- JavaScript falsiness of an optional string: `null`, `undefined` and
the empty string are falsy. -/
def strFalsy : Option String → Bool
  | none => true
  | some s => s = ""

/-- JavaScript `String.prototype.trim`: drop whitespace characters from
both ends, modelled on the character list. -/
def trimChars (cs : List Char) : List Char :=
  ((cs.dropWhile Char.isWhitespace).reverse.dropWhile Char.isWhitespace).reverse

/-- JavaScript `String.prototype.toLowerCase`, modelled character by
character. -/
def lowerChars (cs : List Char) : List Char :=
  cs.map Char.toLower

/-- The composite `s.trim().toLowerCase()` used by `isEscala12x36`. -/
def jsTrimToLower (s : String) : String :=
  String.mk (lowerChars (trimChars s.data))

/-- `isEscala12x36`: returns false for a falsy label, otherwise trims
surrounding whitespace, lower-cases, and compares with `"12x36"`. -/
def isEscala12x36 (escala : Option String) : Bool :=
  if strFalsy escala then false
  else match escala with
    | none => false
    | some s => jsTrimToLower s = "12x36"

/-- The `baseEfetivo` local of `getEfetivoPlanejadoAjustado`:
`posto.efetivo_planejado && posto.efetivo_planejado > 0` is true only
for a present, non-zero, positive number; otherwise the baseline is 1. -/
def baseEfetivo (posto : PostoEfetivoInfo) : Int :=
  match posto.efetivo_planejado with
  | none => 1
  | some x => if x ≠ 0 ∧ x > 0 then x else 1

/-- `getEfetivoPlanejadoAjustado`: the baseline headcount, raised to
`MIN_EFETIVO_ESCALA_12X36` when the shift rotation is 12x36. -/
def getEfetivoPlanejadoAjustado (posto : PostoEfetivoInfo) : Int :=
  if isEscala12x36 posto.escala then
    max (baseEfetivo posto) MIN_EFETIVO_ESCALA_12X36
  else baseEfetivo posto

/-- The record returned by `getCoberturaParaPosto`. -/
structure Cobertura where
  efetivoNecessario : Int
  efetivoConsiderado : Int
  estaCoberto : Bool
deriving DecidableEq, Repr

/-- `getCoberturaParaPosto`: required headcount, considered headcount
capped at the requirement, and the coverage flag. -/
def getCoberturaParaPosto (colaboradoresAtivos : Int)
    (posto : PostoEfetivoInfo) : Cobertura :=
  let efetivoNecessario := getEfetivoPlanejadoAjustado posto
  let efetivoConsiderado := min colaboradoresAtivos efetivoNecessario
  { efetivoNecessario := efetivoNecessario
    efetivoConsiderado := efetivoConsiderado
    estaCoberto := colaboradoresAtivos ≥ efetivoNecessario }

/-- Checked variant of `s.trim().toLowerCase()`: accessing a method on
an absent (null/undefined) string is a JavaScript TypeError. -/
def jsTrimToLowerChecked : Option String → Except String String
  | none => Except.error "TypeError: cannot read properties of null"
  | some s => Except.ok (jsTrimToLower s)

/-- Checked variant of `isEscala12x36`: the falsiness guard runs first,
so the method access only happens on a present, non-empty string. -/
def isEscala12x36Checked (escala : Option String) : Except String Bool :=
  if strFalsy escala then Except.ok false
  else match jsTrimToLowerChecked escala with
    | Except.error e => Except.error e
    | Except.ok t => Except.ok (t = "12x36")

/-- Checked variant of `getEfetivoPlanejadoAjustado`, propagating any
error of the shift-label check. -/
def getEfetivoPlanejadoAjustadoChecked (posto : PostoEfetivoInfo) :
    Except String Int :=
  match isEscala12x36Checked posto.escala with
  | Except.error e => Except.error e
  | Except.ok b =>
    Except.ok (if b then max (baseEfetivo posto) MIN_EFETIVO_ESCALA_12X36
               else baseEfetivo posto)

/-- Checked variant of `getCoberturaParaPosto`, propagating any error of
the headcount adjustment. -/
def getCoberturaParaPostoChecked (colaboradoresAtivos : Int)
    (posto : PostoEfetivoInfo) : Except String Cobertura :=
  match getEfetivoPlanejadoAjustadoChecked posto with
  | Except.error e => Except.error e
  | Except.ok nec =>
    Except.ok { efetivoNecessario := nec
                efetivoConsiderado := min colaboradoresAtivos nec
                estaCoberto := colaboradoresAtivos ≥ nec }

/-! Helper lemmas shared between claim theorems. -/

lemma one_le_baseEfetivo (p : PostoEfetivoInfo) : 1 ≤ baseEfetivo p := by
  unfold baseEfetivo
  cases p.efetivo_planejado with
  | none => exact le_refl 1
  | some x =>
    by_cases h : x ≠ 0 ∧ x > 0
    · simp [h]; omega
    · simp [h]

lemma baseEfetivo_of_pos (p : PostoEfetivoInfo) (x : Int)
    (hx : p.efetivo_planejado = some x) (hpos : 0 < x) : baseEfetivo p = x := by
  unfold baseEfetivo
  rw [hx]
  simp only [ne_eq, gt_iff_lt]
  rw [if_pos ⟨by omega, hpos⟩]

lemma baseEfetivo_of_nonpos (p : PostoEfetivoInfo)
    (h : p.efetivo_planejado = none ∨
      ∃ x, p.efetivo_planejado = some x ∧ x ≤ 0) : baseEfetivo p = 1 := by
  unfold baseEfetivo
  rcases h with h | ⟨x, hx, hle⟩
  · rw [h]
  · rw [hx]
    simp only [ne_eq, gt_iff_lt]
    rw [if_neg]
    rintro ⟨-, hpos⟩
    omega

lemma isEscala12x36Checked_ok (escala : Option String) :
    isEscala12x36Checked escala = Except.ok (isEscala12x36 escala) := by
  cases escala with
  | none => rfl
  | some s =>
    by_cases hs : s = "" <;>
      simp [isEscala12x36Checked, isEscala12x36, strFalsy, jsTrimToLowerChecked, hs]

lemma getEfetivoPlanejadoAjustadoChecked_ok (p : PostoEfetivoInfo) :
    getEfetivoPlanejadoAjustadoChecked p =
      Except.ok (getEfetivoPlanejadoAjustado p) := by
  unfold getEfetivoPlanejadoAjustadoChecked
  rw [isEscala12x36Checked_ok]
  rfl

lemma getCoberturaParaPostoChecked_ok (n : Int) (p : PostoEfetivoInfo) :
    getCoberturaParaPostoChecked n p =
      Except.ok (getCoberturaParaPosto n p) := by
  unfold getCoberturaParaPostoChecked
  rw [getEfetivoPlanejadoAjustadoChecked_ok]
  rfl

/-! Claim theorems. -/

/-- C1: for every PostInfo whose shift type is a 12x36 rotation per
`isEscala12x36`, `getEfetivoPlanejadoAjustado` returns the maximum of
the baseline and 4, where the baseline is the planned headcount when it
is present and positive and 1 otherwise. -/
theorem escala12x36_requires_max_base_four (p : PostoEfetivoInfo)
    (h : isEscala12x36 p.escala = true) :
    getEfetivoPlanejadoAjustado p = max (baseEfetivo p) 4
    ∧ (∀ x, p.efetivo_planejado = some x → 0 < x → baseEfetivo p = x)
    ∧ (p.efetivo_planejado = none ∨
        (∃ x, p.efetivo_planejado = some x ∧ x ≤ 0) → baseEfetivo p = 1) := by
  refine ⟨?_, ?_, ?_⟩
  · unfold getEfetivoPlanejadoAjustado
    rw [h]
    rfl
  · intro x hx hpos
    exact baseEfetivo_of_pos p x hx hpos
  · intro hcase
    exact baseEfetivo_of_nonpos p hcase

/-- Witness for C1: the claim's two worked examples, with the 12x36
hypothesis discharged at the post with planned headcount 2. -/
theorem escala12x36_requires_max_base_four_witness :
    getEfetivoPlanejadoAjustado ⟨some "12x36", some 2⟩ =
      max (baseEfetivo ⟨some "12x36", some 2⟩) 4
    ∧ getEfetivoPlanejadoAjustado ⟨some "12x36", some 2⟩ = 4
    ∧ getEfetivoPlanejadoAjustado ⟨some "12x36", some 6⟩ = 6 :=
  ⟨(escala12x36_requires_max_base_four ⟨some "12x36", some 2⟩ (by decide)).1,
   by decide, by decide⟩

/-- C2: whenever the planned headcount is absent, zero or negative, the
baseline is 1, and when the shift type is additionally not a 12x36
rotation the adjusted headcount is exactly 1. -/
theorem baseline_one_for_missing_or_nonpositive (p : PostoEfetivoInfo)
    (h : p.efetivo_planejado = none ∨
      ∃ x, p.efetivo_planejado = some x ∧ x ≤ 0) :
    baseEfetivo p = 1
    ∧ (isEscala12x36 p.escala = false → getEfetivoPlanejadoAjustado p = 1) := by
  have hb := baseEfetivo_of_nonpos p h
  refine ⟨hb, fun hesc => ?_⟩
  unfold getEfetivoPlanejadoAjustado
  rw [hesc]
  simpa using hb

/-- Witness for C2: a daily-shift post with planned headcount 0. -/
theorem baseline_one_for_missing_or_nonpositive_witness :
    baseEfetivo ⟨some "diarista", some 0⟩ = 1
    ∧ getEfetivoPlanejadoAjustado ⟨some "diarista", some 0⟩ = 1 := by
  have h := baseline_one_for_missing_or_nonpositive ⟨some "diarista", some 0⟩
    (Or.inr ⟨0, rfl, le_refl 0⟩)
  exact ⟨h.1, h.2 (by decide)⟩

/-- C3: `isEscala12x36` returns true exactly when the label is a present
string that, after trimming and lower-casing, equals "12x36"; it returns
false for an absent label, and in particular on the claim's examples. -/
theorem isEscala12x36_iff_trimmed_lower_matches :
    (∀ escala : Option String, isEscala12x36 escala = true ↔
      ∃ s, escala = some s ∧ jsTrimToLower s = "12x36")
    ∧ isEscala12x36 (some " 12X36 ") = true
    ∧ isEscala12x36 (some "12x37") = false
    ∧ isEscala12x36 none = false := by
  refine ⟨fun escala => ?_, by decide, by decide, by decide⟩
  cases escala with
  | none => simp [isEscala12x36, strFalsy]
  | some s =>
    by_cases hs : s = ""
    · subst hs
      simp only [isEscala12x36, strFalsy]
      simp
      decide
    · simp [isEscala12x36, strFalsy, hs]

/-- C4: the considered headcount of `getCoberturaParaPosto` is the
minimum of the active-collaborator count and the required headcount, so
it never exceeds either. -/
theorem cobertura_considerado_is_min (n : Int) (hn : 0 ≤ n)
    (p : PostoEfetivoInfo) :
    (getCoberturaParaPosto n p).efetivoNecessario =
      getEfetivoPlanejadoAjustado p
    ∧ (getCoberturaParaPosto n p).efetivoConsiderado =
      min n (getEfetivoPlanejadoAjustado p)
    ∧ (getCoberturaParaPosto n p).efetivoConsiderado ≤
      getEfetivoPlanejadoAjustado p
    ∧ (getCoberturaParaPosto n p).efetivoConsiderado ≤ n := by
  refine ⟨rfl, rfl, ?_, ?_⟩
  · simp [getCoberturaParaPosto]
  · simp [getCoberturaParaPosto]

/-- Witness for C4 at 3 active collaborators and a 12x36 post. -/
theorem cobertura_considerado_is_min_witness :
    (getCoberturaParaPosto 3 ⟨some "12x36", some 1⟩).efetivoNecessario =
      getEfetivoPlanejadoAjustado ⟨some "12x36", some 1⟩
    ∧ (getCoberturaParaPosto 3 ⟨some "12x36", some 1⟩).efetivoConsiderado =
      min 3 (getEfetivoPlanejadoAjustado ⟨some "12x36", some 1⟩)
    ∧ (getCoberturaParaPosto 3 ⟨some "12x36", some 1⟩).efetivoConsiderado ≤
      getEfetivoPlanejadoAjustado ⟨some "12x36", some 1⟩
    ∧ (getCoberturaParaPosto 3 ⟨some "12x36", some 1⟩).efetivoConsiderado ≤ 3 :=
  cobertura_considerado_is_min 3 (by decide) ⟨some "12x36", some 1⟩

/-- C5: the coverage flag of `getCoberturaParaPosto` is true exactly
when the active-collaborator count reaches the required headcount. -/
theorem cobertura_estaCoberto_iff_enough (n : Int) (hn : 0 ≤ n)
    (p : PostoEfetivoInfo) :
    (getCoberturaParaPosto n p).estaCoberto = true ↔
      getEfetivoPlanejadoAjustado p ≤ n := by
  simp [getCoberturaParaPosto]

/-- Witness for C5 at 2 active collaborators and a daily-shift post. -/
theorem cobertura_estaCoberto_iff_enough_witness :
    (getCoberturaParaPosto 2 ⟨some "diarista", some 2⟩).estaCoberto = true ↔
      getEfetivoPlanejadoAjustado ⟨some "diarista", some 2⟩ ≤ 2 :=
  cobertura_estaCoberto_iff_enough 2 (by decide) ⟨some "diarista", some 2⟩

/-- C6: the adjusted planned headcount is always at least 1, and at
least 4 when the shift type is a 12x36 rotation. -/
theorem efetivo_ajustado_positive (p : PostoEfetivoInfo) :
    1 ≤ getEfetivoPlanejadoAjustado p
    ∧ (isEscala12x36 p.escala = true → 4 ≤ getEfetivoPlanejadoAjustado p) := by
  have hb := one_le_baseEfetivo p
  unfold getEfetivoPlanejadoAjustado
  constructor
  · by_cases h : isEscala12x36 p.escala = true
    · rw [h]
      simp only [if_true, MIN_EFETIVO_ESCALA_12X36]
      omega
    · rw [Bool.not_eq_true] at h
      rw [h]
      simpa using hb
  · intro h
    rw [h]
    simp only [if_true, MIN_EFETIVO_ESCALA_12X36]
    omega

/-- Witness for C6 at a 12x36 post with planned headcount 1. -/
theorem efetivo_ajustado_positive_witness :
    1 ≤ getEfetivoPlanejadoAjustado ⟨some "12x36", some 1⟩
    ∧ 4 ≤ getEfetivoPlanejadoAjustado ⟨some "12x36", some 1⟩ :=
  ⟨(efetivo_ajustado_positive ⟨some "12x36", some 1⟩).1,
   (efetivo_ajustado_positive ⟨some "12x36", some 1⟩).2 (by decide)⟩

/-- C7: the three end-to-end scenarios of the spec, evaluated on the
embedded `getCoberturaParaPosto`. -/
theorem cobertura_scenarios :
    getCoberturaParaPosto 3 ⟨some "12x36", some 1⟩ = ⟨4, 3, false⟩
    ∧ getCoberturaParaPosto 2 ⟨some "diarista", some 2⟩ = ⟨2, 2, true⟩
    ∧ getCoberturaParaPosto 0 ⟨none, none⟩ = ⟨1, 0, false⟩ := by
  refine ⟨by decide, by decide, by decide⟩

/-- C8: the three operations are total: on every input the checked
variants, in which a method access on an absent string would be a
TypeError, return a defined value and never an error, and that value is
the one the plain embedding computes. -/
theorem calculator_total_no_errors :
    ∀ (escala : Option String) (p : PostoEfetivoInfo) (n : Int),
    isEscala12x36Checked escala = Except.ok (isEscala12x36 escala)
    ∧ getEfetivoPlanejadoAjustadoChecked p =
      Except.ok (getEfetivoPlanejadoAjustado p)
    ∧ getCoberturaParaPostoChecked n p =
      Except.ok (getCoberturaParaPosto n p) :=
  fun escala p n =>
    ⟨isEscala12x36Checked_ok escala,
     getEfetivoPlanejadoAjustadoChecked_ok p,
     getCoberturaParaPostoChecked_ok n p⟩

/-- C9: each operation is a pure, deterministic function of its
arguments: two calls with equal arguments return equal results. -/
theorem calculator_deterministic (n1 n2 : Int) (p1 p2 : PostoEfetivoInfo)
    (hn : n1 = n2) (hp : p1 = p2) :
    isEscala12x36 p1.escala = isEscala12x36 p2.escala
    ∧ getEfetivoPlanejadoAjustado p1 = getEfetivoPlanejadoAjustado p2
    ∧ getCoberturaParaPosto n1 p1 = getCoberturaParaPosto n2 p2 := by
  subst hn
  subst hp
  exact ⟨rfl, rfl, rfl⟩

/-- Witness for C9 at two textually equal calls. -/
theorem calculator_deterministic_witness :
    isEscala12x36 (some "12x36") = isEscala12x36 (some "12x36")
    ∧ getEfetivoPlanejadoAjustado ⟨some "12x36", some 1⟩ =
      getEfetivoPlanejadoAjustado ⟨some "12x36", some 1⟩
    ∧ getCoberturaParaPosto 3 ⟨some "12x36", some 1⟩ =
      getCoberturaParaPosto 3 ⟨some "12x36", some 1⟩ :=
  calculator_deterministic 3 3 ⟨some "12x36", some 1⟩ ⟨some "12x36", some 1⟩
    rfl rfl

/-- C10: the coverage flag is true exactly when the considered headcount
equals the required headcount, and when the flag is false the considered
headcount is exactly the active-collaborator count. -/
theorem estaCoberto_iff_considerado_meets_necessario (n : Int) (hn : 0 ≤ n)
    (p : PostoEfetivoInfo) :
    ((getCoberturaParaPosto n p).estaCoberto = true ↔
      (getCoberturaParaPosto n p).efetivoConsiderado =
        (getCoberturaParaPosto n p).efetivoNecessario)
    ∧ ((getCoberturaParaPosto n p).estaCoberto = false →
      (getCoberturaParaPosto n p).efetivoConsiderado = n) := by
  constructor
  · simp [getCoberturaParaPosto]
  · simp [getCoberturaParaPosto]
    omega

/-- Witness for C10 at 3 active collaborators and a 12x36 post. -/
theorem estaCoberto_iff_considerado_meets_necessario_witness :
    ((getCoberturaParaPosto 3 ⟨some "12x36", some 1⟩).estaCoberto = true ↔
      (getCoberturaParaPosto 3 ⟨some "12x36", some 1⟩).efetivoConsiderado =
        (getCoberturaParaPosto 3 ⟨some "12x36", some 1⟩).efetivoNecessario)
    ∧ ((getCoberturaParaPosto 3 ⟨some "12x36", some 1⟩).estaCoberto = false →
      (getCoberturaParaPosto 3 ⟨some "12x36", some 1⟩).efetivoConsiderado = 3) :=
  estaCoberto_iff_considerado_meets_necessario 3 (by decide)
    ⟨some "12x36", some 1⟩

end FacilitiesHub
